import Mathlib

/-!
Shallow embedding of the meme-vault asynchronous media pipeline
(src/main.go together with src/schema.sql).

The persistent store (sqlite table `media`), the full-text index
(fts4 virtual table `media_fts`), the filesystem of derived artifacts
and the job queue are modelled as explicit state; external collaborators
(image decoding, thumbnail save, tesseract, ffmpeg, the database and
index writes) are modelled by an environment record that fixes the
outcome of each effect, so every pipeline function is a pure state
transformer.
-/

namespace MemeVault

/-- A decoded raster image: only its pixel dimensions matter to the core. -/
structure Image where
  width : Nat
  height : Nat
deriving DecidableEq, Repr

/-- Resampling filters of the imaging library; `processImage` always passes
`imaging.Lanczos`. -/
inductive ResampleFilter
  | lanczos
  | nearestNeighbor
  | box
deriving DecidableEq, Repr

/-- Result of `imaging.Resize`: an image together with the filter that
produced it. -/
structure Resized where
  width : Nat
  height : Nat
  filter : ResampleFilter
deriving DecidableEq, Repr

/-- Contents of a file in the derived-artifact namespace: either a raw
still frame written by ffmpeg, or a thumbnail written by `imaging.Save`. -/
inductive FileData
  | frame
  | thumb (r : Resized)
deriving DecidableEq, Repr

/-- `ProcessingJob` from src/main.go lines 21-25: ephemeral work
descriptor `{ID, Path, MimeType}` carried by the job queue channel. -/
structure ProcessingJob where
  id : Int
  path : String
  mimeType : String
deriving DecidableEq, Repr

/-- One row of the `media` table (src/schema.sql lines 1-13, plus the
`processing_status` column used by src/main.go).  Optional columns are
`Option`; `none` is SQL NULL.  `created_at` is modelled as a `Nat`
timestamp ordered like the textual default `CURRENT_TIMESTAMP`. -/
structure MediaRecord where
  id : Int
  path : String
  thumb : Option String
  mime : String
  width : Option Nat
  height : Option Nat
  sizeBytes : Nat
  tags : String
  ocrText : Option String
  processingStatus : String
  createdAt : Nat
deriving DecidableEq, Repr

/-- One row of the fts4 virtual table `media_fts (id, ocr_text, tags, path)`
(src/schema.sql lines 15-17).  `rowid` is the implicit sqlite rowid; the
declared column `id` is a separate, ordinary column (`idCol` here), NULL
unless explicitly inserted.  The upload path inserts with an explicit
`rowid` and never sets the `id` column. -/
structure FtsRow where
  rowid : Int
  idCol : Option Int
  ocrText : String
  tags : String
  path : String
deriving DecidableEq, Repr

/-- Whole-system state: the `media` table, the `media_fts` index, the
derived-artifact filesystem (path ↦ contents) and the buffered job queue. -/
structure St where
  media : List MediaRecord
  fts : List FtsRow
  files : List (String × FileData)
  queue : List ProcessingJob
deriving DecidableEq, Repr

/-- Environment fixing the outcome of every external effect of one job:
`imaging.Open` per path, `imaging.Save`, tesseract per path (`none` is any
failure: non-zero exit, crash, missing binary; `some out` is the raw
stdout), the two database writes of `processImage`, ffmpeg, `os.Remove`. -/
structure Env where
  openResult : String → Option Image
  saveOk : Bool
  ocrRun : String → Option String
  dbOk : Bool
  ftsOk : Bool
  ffmpegOk : Bool
  removeOk : Bool

/-- Go `strings.HasPrefix s pre` (byte-wise prefix test). -/
def goHasPrefix (s pre : String) : Bool :=
  pre.data.isPrefixOf s.data

/-- Thumbnail path `"static/" + strconv.FormatInt(id, 10) + "_thumb.jpg"`
(src/main.go line 319). -/
def thumbPathFor (id : Int) : String :=
  "static/" ++ toString id ++ "_thumb.jpg"

/-- Temporary frame path `"static/" + strconv.FormatInt(id, 10) + "_frame.jpg"`
(src/main.go line 360). -/
def framePathFor (id : Int) : String :=
  "static/" ++ toString id ++ "_frame.jpg"

/-- `imaging.Resize src dstW dstH f` of github.com/disintegration/imaging,
restricted to dimension bookkeeping: a zero target dimension is computed
from the other one preserving aspect ratio, rounded half-up with a minimum
of 1 (`int(math.Max(1, math.Floor(tmp+0.5)))`); degenerate inputs give an
empty image.  `processImage` only ever calls it with `dstW = 200, dstH = 0`. -/
def imagingResize (src : Image) (dstW dstH : Nat) (f : ResampleFilter) : Resized :=
  if dstW = 0 ∧ dstH = 0 then ⟨0, 0, f⟩
  else if src.width = 0 ∨ src.height = 0 then ⟨0, 0, f⟩
  else if dstW = 0 then
    ⟨max 1 ((2 * dstH * src.width + src.height) / (2 * src.height)), dstH, f⟩
  else if dstH = 0 then
    ⟨dstW, max 1 ((2 * dstW * src.height + src.width) / (2 * src.width)), f⟩
  else ⟨dstW, dstH, f⟩

/-- Write (or overwrite) a file in the derived-artifact namespace. -/
def putFile (st : St) (p : String) (d : FileData) : St :=
  { st with files := (p, d) :: st.files.filter (fun e => e.1 ≠ p) }

/-- `os.Remove p` (successful case). -/
def removeFile (st : St) (p : String) : St :=
  { st with files := st.files.filter (fun e => e.1 ≠ p) }

/-- Does a file exist at path `p`? -/
def fileExists (st : St) (p : String) : Bool :=
  st.files.any (fun e => e.1 = p)

/-- Contents of the file at path `p`, if any. -/
def fileLookup (st : St) (p : String) : Option FileData :=
  (st.files.find? (fun e => e.1 = p)).map (fun e => e.2)

/-- Go `strings.TrimSpace`: the string with all leading and trailing
whitespace removed. -/
def goTrimSpace (s : String) : String :=
  ⟨((s.data.dropWhile Char.isWhitespace).reverse.dropWhile Char.isWhitespace).reverse⟩

/-- `extractOCR` (src/main.go lines 346-356): run tesseract on `imagePath`;
any failure returns `""`, success returns `strings.TrimSpace` of stdout. -/
def extractOCR (env : Env) (imagePath : String) : String :=
  match env.ocrRun imagePath with
  | none => ""
  | some out => goTrimSpace out

/-- Effect of `UPDATE media SET thumb = ?, width = ?, height = ?,
ocr_text = ?, processing_status = 'completed' WHERE id = ?`
(src/main.go line 335). -/
def updateMediaCompleted (st : St) (id : Int) (thumbPath : String)
    (w h : Nat) (ocr : String) : St :=
  { st with media := st.media.map (fun m =>
      if m.id = id then
        { m with thumb := some thumbPath, width := some w, height := some h,
                 ocrText := some ocr, processingStatus := "completed" }
      else m) }

/-- Effect of `UPDATE media_fts SET ocr_text = ? WHERE id = ?`
(src/main.go line 340).  The WHERE clause compares the declared fts column
`id`; a row whose `id` column is NULL never matches (SQL three-valued
logic: `NULL = v` is not true). -/
def updateFtsOcrWhereIdCol (st : St) (id : Int) (ocr : String) : St :=
  { st with fts := st.fts.map (fun r =>
      if r.idCol = some id then { r with ocrText := ocr } else r) }

/-- `processImage` (src/main.go lines 310-344): decode, resize to width 200
with Lanczos, save the thumbnail, read dimensions, OCR the original path,
then the two independent writes (record, index).  Decode failure and save
failure abort with no state change; write failures are logged only. -/
def processImage (env : Env) (id : Int) (path : String) (st : St) : St :=
  match env.openResult path with
  | none => st
  | some src =>
    let thumb := imagingResize src 200 0 ResampleFilter.lanczos
    let thumbPath := thumbPathFor id
    if env.saveOk then
      let st1 := putFile st thumbPath (FileData.thumb thumb)
      let ocrText := extractOCR env path
      let st2 :=
        if env.dbOk then
          updateMediaCompleted st1 id thumbPath src.width src.height ocrText
        else st1
      if env.ftsOk then updateFtsOcrWhereIdCol st2 id ocrText else st2
    else st

/-- `processVideoOrGif` (src/main.go lines 358-373): ffmpeg extracts the
first frame to the per-id temp path (failure aborts with no state change),
then delegates to `processImage` on the frame path, then `os.Remove` of
the frame path unconditionally (removal failure is logged nowhere and
non-fatal). -/
def processVideoOrGif (env : Env) (id : Int) (path : String) (st : St) : St :=
  let framePath := framePathFor id
  if env.ffmpegOk then
    let st1 := putFile st framePath FileData.frame
    let st2 := processImage env id framePath st1
    if env.removeOk then removeFile st2 framePath else st2
  else st

/-- Routing outcome of the dispatcher. -/
inductive Route
  | image
  | videoOrGif
  | noop
deriving DecidableEq, Repr

/-- The routing decision of `processMedia` (src/main.go lines 297-308),
with exactly its conditional structure: `strings.HasPrefix(mimeType, "image/")`
is tested first, then `strings.HasPrefix(mimeType, "video/") ||
mimeType == "image/gif"`, else a logged no-op. -/
def dispatchRoute (mimeType : String) : Route :=
  if goHasPrefix mimeType "image/" then Route.image
  else if goHasPrefix mimeType "video/" || mimeType == "image/gif" then Route.videoOrGif
  else Route.noop

/-- `processMedia` (src/main.go lines 297-308). -/
def processMedia (env : Env) (id : Int) (path mimeType : String) (st : St) : St :=
  if goHasPrefix mimeType "image/" then processImage env id path st
  else if goHasPrefix mimeType "video/" || mimeType == "image/gif" then
    processVideoOrGif env id path st
  else st

theorem processMedia_eq_dispatch (env : Env) (id : Int) (path mimeType : String) (st : St) :
    processMedia env id path mimeType st =
      match dispatchRoute mimeType with
      | Route.image => processImage env id path st
      | Route.videoOrGif => processVideoOrGif env id path st
      | Route.noop => st := by
  unfold processMedia dispatchRoute
  by_cases h1 : goHasPrefix mimeType "image/" = true
  · simp [h1]
  · simp only [Bool.not_eq_true] at h1
    by_cases h2 : (goHasPrefix mimeType "video/" || mimeType == "image/gif") = true
    · simp [h1, h2]
    · simp only [Bool.not_eq_true] at h2
      simp [h1, h2]

example : dispatchRoute "image/gif" = Route.image := by decide

example : imagingResize ⟨300, 200⟩ 200 0 ResampleFilter.lanczos =
    ⟨200, 133, ResampleFilter.lanczos⟩ := by decide

/-- Environment of one iteration of the upload loop: outcome of the
`INSERT INTO media ...` (its `LastInsertId` on success, `none` when the
insert or the id retrieval errors and the handler returns 500 before any
further effect), outcome of the best-effort fts insert, and the store's
`CURRENT_TIMESTAMP` default. -/
structure UploadEnv where
  insertResult : Option Int
  ftsInsertOk : Bool
  now : Nat

/-- Result of one iteration of the upload loop: the new state and whether
an error response was surfaced synchronously to the caller. -/
structure UploadStep where
  st : St
  errored : Bool
deriving DecidableEq, Repr

/-- One iteration of the per-file loop of `uploadHandler`
(src/main.go lines 101-145), after the file bytes were saved and sized:
`INSERT INTO media (path, mime, size_bytes, tags, processing_status)
VALUES (?, ?, ?, ?, 'processing')` — failure is returned to the caller as
HTTP 500 with nothing enqueued; on success the best-effort
`INSERT INTO media_fts (rowid, ocr_text, tags, path)` (note: the declared
`id` column is not in the column list, so it is NULL), then exactly one
`ProcessingJob{id, path, mimeType}` is pushed onto the queue. -/
def ingestFile (env : UploadEnv) (path mimeType tags : String)
    (sizeBytes : Nat) (st : St) : UploadStep :=
  match env.insertResult with
  | none => ⟨st, true⟩
  | some id =>
    let newRec : MediaRecord :=
      ⟨id, path, none, mimeType, none, none, sizeBytes, tags, none, "processing", env.now⟩
    let st1 := { st with media := st.media ++ [newRec] }
    let st2 :=
      if env.ftsInsertOk then
        { st1 with fts := st1.fts ++ [⟨id, none, "", tags, path⟩] }
      else st1
    ⟨{ st2 with queue := st2.queue ++ [⟨id, path, mimeType⟩] }, false⟩

/-- Descending `created_at` order used by `ORDER BY created_at DESC`. -/
def createdDescR (a b : MediaRecord) : Prop :=
  b.createdAt ≤ a.createdAt

instance : DecidableRel createdDescR := fun a b => Nat.decLe b.createdAt a.createdAt

instance : IsTotal MediaRecord createdDescR :=
  ⟨fun a b => le_total b.createdAt a.createdAt⟩

instance : IsTrans MediaRecord createdDescR :=
  ⟨fun _ _ _ hab hbc => le_trans hbc hab⟩

/-- The store's `ORDER BY created_at DESC` (any stable realisation). -/
def sortByCreatedDesc (l : List MediaRecord) : List MediaRecord :=
  List.insertionSort createdDescR l

/-- Result of `getMedia`: whether the primary `media` table was queried
for records, and the returned rows. -/
structure QueryResult where
  primaryQueried : Bool
  rows : List MediaRecord
deriving Repr

/-- `getMedia` (src/main.go lines 185-233).  The index's MATCH operator is
an oracle `ftsMatch : query → index rows → matching rowids` (match
semantics are delegated verbatim to fts4).  Empty query: all records,
newest first, no index access.  Non-empty: collect matching rowids from
`SELECT rowid FROM media_fts WHERE media_fts MATCH ?`; if none, return
`[]` without querying the primary table; else
`SELECT ... FROM media WHERE id IN (...) ORDER BY created_at DESC`. -/
def getMedia (ftsMatch : String → List FtsRow → List Int) (st : St)
    (query : String) : QueryResult :=
  if query = "" then ⟨true, sortByCreatedDesc st.media⟩
  else
    let ids := ftsMatch query st.fts
    if ids = [] then ⟨false, []⟩
    else ⟨true, sortByCreatedDesc (st.media.filter (fun m => ids.contains m.id))⟩

/-- Go `strconv.ParseInt(s, 10, 64)` as an `Option Int`: an optional sign,
a non-empty run of decimal digits, and a signed 64-bit range check;
anything else (including overflow) errors. -/
def parseGoInt64 (s : String) : Option Int :=
  let split : Int × List Char :=
    match s.data with
    | '+' :: rest => (1, rest)
    | '-' :: rest => (-1, rest)
    | cs => (1, cs)
  let ds := split.2
  if ds = [] then none
  else if ds.all Char.isDigit then
    let n : Nat := ds.foldl (fun a c => a * 10 + (c.toNat - 48)) 0
    let v : Int := split.1 * n
    if -(2 ^ 63) ≤ v ∧ v ≤ 2 ^ 63 - 1 then some v else none
  else none

/-- An HTTP-level handler outcome: final state, status code, body. -/
structure HandlerResult where
  st : St
  status : Nat
  body : String
deriving DecidableEq, Repr

/-- `updateTagsHandler` (src/main.go lines 243-264): parse the path id with
`strconv.ParseInt` (400 on error), `UPDATE media SET tags = ? WHERE id = ?`
(500 only if the statement itself errors — matching zero rows is success),
best-effort `UPDATE media_fts SET tags = ? WHERE rowid = ?` (failure only
logged), then respond `200` with the submitted tags string as body. -/
def updateTagsHandler (dbOk ftsOk : Bool) (idStr tags : String)
    (st : St) : HandlerResult :=
  match parseGoInt64 idStr with
  | none => ⟨st, 400, "Invalid id"⟩
  | some id =>
    if dbOk then
      let st1 := { st with media := st.media.map (fun m =>
        if m.id = id then { m with tags := tags } else m) }
      let st2 :=
        if ftsOk then
          { st1 with fts := st1.fts.map (fun r =>
              if r.rowid = id then { r with tags := tags } else r) }
        else st1
      ⟨st2, 200, tags⟩
    else ⟨st, 500, "error"⟩

/-- `var jobQueue = make(chan ProcessingJob, 100)` (src/main.go line 28). -/
def queueCapacity : Nat := 100

/-- State of the job queue channel together with its event history:
`buffer` is the channel's buffer (front = oldest), `enqueued` the sequence
of jobs whose sends completed, `delivered` the sequence of jobs received
by workers, both in order of occurrence. -/
structure ChanState where
  buffer : List ProcessingJob
  enqueued : List ProcessingJob
  delivered : List ProcessingJob
deriving DecidableEq, Repr

/-- The initial, empty channel. -/
def chanInit : ChanState :=
  ⟨[], [], []⟩

/-- Small-step semantics of the buffered Go channel: a send completes only
while a buffer slot is free (a producer whose send cannot step is blocked);
a receive takes the front of the buffer and is what frees a slot.  Jobs are
never dropped: the only transitions are these two. -/
inductive ChanStep : ChanState → ChanState → Prop
  | enqueue (j : ProcessingJob) (s : ChanState)
      (h : s.buffer.length < queueCapacity) :
      ChanStep s ⟨s.buffer ++ [j], s.enqueued ++ [j], s.delivered⟩
  | dequeue (j : ProcessingJob) (rest : List ProcessingJob) (s : ChanState)
      (h : s.buffer = j :: rest) :
      ChanStep s ⟨rest, s.enqueued, s.delivered ++ [j]⟩

/-- Channel states reachable from the empty channel. -/
def ChanReachable (s : ChanState) : Prop :=
  Relation.ReflTransGen ChanStep chanInit s

/-! ### Shared helper lemmas and concrete inputs -/

/-- The empty system state. -/
def emptySt : St :=
  ⟨[], [], [], []⟩

theorem fileExists_removeFile (st : St) (p : String) :
    fileExists (removeFile st p) p = false := by
  simp only [fileExists, removeFile, List.any_eq_false, decide_eq_true_eq]
  intro e he
  have h := (List.mem_filter.1 he).2
  simpa using h

theorem fileLookup_putFile (st : St) (p : String) (d : FileData) :
    fileLookup (putFile st p d) p = some d := by
  simp [fileLookup, putFile, List.find?_cons]

theorem map_if_eq_self {α : Type} (l : List α) (p : α → Prop) [DecidablePred p]
    (f : α → α) (h : ∀ a ∈ l, ¬ p a) :
    l.map (fun a => if p a then f a else a) = l := by
  induction l with
  | nil => rfl
  | cons x xs ih =>
    simp only [List.map_cons, if_neg (h x (List.mem_cons_self x xs))]
    rw [ih (fun a ha => h a (List.mem_cons_of_mem x ha))]

theorem processImage_ignores_ffmpeg_remove (o : String → Option Image) (sv : Bool)
    (ocr : String → Option String) (db fts ff rm ff2 rm2 : Bool) (id : Int)
    (p : String) (st : St) :
    processImage ⟨o, sv, ocr, db, fts, ff, rm⟩ id p st =
      processImage ⟨o, sv, ocr, db, fts, ff2, rm2⟩ id p st := rfl

/-! ### Claims -/

def c1Env : Env :=
  ⟨fun _ => none, true, fun _ => none, true, true, true, true⟩

/-- C1: every dequeued job is routed purely by declared MIME type.  The
claim (following the spec) says a MIME type that is exactly `image/gif`
goes to the Video Frame Extractor; but `processMedia` tests
`strings.HasPrefix(mimeType, "image/")` first, so `image/gif` is routed to
the Image Processor and the `mimeType == "image/gif"` disjunct of the
second branch is unreachable.  Evaluated at the failing input
`"image/gif"`; the remaining routes behave as claimed (`image/*` →
image processor on the job's own path, `video/*` → extractor, anything
else → no-op leaving the state untouched). -/
theorem c1_gif_routed_to_image_processor :
    dispatchRoute "image/gif" = Route.image ∧
    Route.image ≠ Route.videoOrGif ∧
    dispatchRoute "image/png" = Route.image ∧
    dispatchRoute "video/mp4" = Route.videoOrGif ∧
    dispatchRoute "application/octet-stream" = Route.noop ∧
    processMedia c1Env 7 "storage/x.bin" "application/octet-stream" emptySt = emptySt := by
  decide

def c2EnvFail : UploadEnv :=
  ⟨none, true, 5⟩

def c2EnvOk : UploadEnv :=
  ⟨some 3, true, 5⟩

/-- C2: for every file accepted at upload, ingestion appends exactly one
MediaRecord with `processing_status = "processing"` and `thumb`, `width`,
`height`, `ocr_text` all NULL, and pushes exactly one
`ProcessingJob{id, path, mimeType}` onto the queue; an insert failure is
surfaced synchronously (`errored = true`) with the state unchanged and
nothing enqueued. -/
theorem c2_ingest_one_record_one_job (env : UploadEnv) (path mimeType tags : String)
    (sizeBytes : Nat) (st : St) :
    (env.insertResult = none →
      ingestFile env path mimeType tags sizeBytes st = ⟨st, true⟩) ∧
    (∀ id : Int, env.insertResult = some id →
      (ingestFile env path mimeType tags sizeBytes st).errored = false ∧
      (ingestFile env path mimeType tags sizeBytes st).st.media =
        st.media ++
          [⟨id, path, none, mimeType, none, none, sizeBytes, tags, none, "processing", env.now⟩] ∧
      (ingestFile env path mimeType tags sizeBytes st).st.queue =
        st.queue ++ [⟨id, path, mimeType⟩]) := by
  constructor
  · intro h
    simp [ingestFile, h]
  · intro id h
    cases hft : env.ftsInsertOk <;> simp [ingestFile, h, hft]

theorem c2_witness :
    ingestFile c2EnvFail "storage/a.png" "image/png" "t" 4 emptySt = ⟨emptySt, true⟩ ∧
    (ingestFile c2EnvOk "storage/a.png" "image/png" "t" 4 emptySt).st.queue =
      [⟨3, "storage/a.png", "image/png"⟩] := by
  have h := c2_ingest_one_record_one_job c2EnvOk "storage/a.png" "image/png" "t" 4 emptySt
  refine ⟨(c2_ingest_one_record_one_job c2EnvFail "storage/a.png" "image/png" "t" 4 emptySt).1 rfl, ?_⟩
  have h2 := (h.2 3 rfl).2.2
  simpa [emptySt] using h2

def c3Env : Env :=
  ⟨fun _ => some ⟨300, 200⟩, true, fun _ => some "HELLO", true, true, true, true⟩

def c3Rec : MediaRecord :=
  ⟨1, "storage/a.png", none, "image/png", none, none, 10, "", none, "processing", 0⟩

def c3St : St :=
  ⟨[c3Rec], [⟨1, none, "", "", "storage/a.png"⟩], [], []⟩

/-- C3: for a successfully processed image job the claim says the index
entry keyed by the same id ends up with the `ocr_text` persisted on the
record.  The upload path inserts the fts row with an explicit `rowid` and
leaves the declared `id` column NULL, while `processImage` runs
`UPDATE media_fts SET ocr_text = ? WHERE id = ?`, which compares the NULL
`id` column and therefore matches no row: after a fully successful job
with OCR output `"HELLO"`, the record holds `"HELLO"` but the index entry
still holds `""`. -/
theorem c3_index_ocr_text_not_updated :
    (processMedia c3Env 1 "storage/a.png" "image/png" c3St).media.map MediaRecord.ocrText =
      [some "HELLO"] ∧
    (processMedia c3Env 1 "storage/a.png" "image/png" c3St).fts.map FtsRow.ocrText = [""] ∧
    ("" : String) ≠ "HELLO" := by
  decide

def c4Env : Env :=
  ⟨fun _ => some ⟨300, 200⟩, true, fun _ => some "hi\n", true, true, true, true⟩

def c4Rec : MediaRecord :=
  ⟨1, "storage/a.png", none, "image/png", none, none, 10, "", none, "processing", 0⟩

def c4St : St :=
  ⟨[c4Rec], [], [], []⟩

/-- C4 counterexample to the claim as stated: when the OCR collaborator
returns `"hi\n"` for the original image, the persisted `ocr_text` is the
whitespace-trimmed `"hi"`, not the returned text. -/
theorem c4_counterexample_trimmed_output :
    c4Env.ocrRun "storage/a.png" = some "hi\n" ∧
    (processImage c4Env 1 "storage/a.png" c4St).media.map MediaRecord.ocrText =
      [some "hi"] ∧
    (some "hi" : Option String) ≠ some "hi\n" := by
  decide

/-- C4 (amended): for every image job that reaches the OCR step (decode
and thumbnail save succeeded) whose record write succeeds, the OCR
collaborator is consulted on the original `path` (not the thumbnail), the
persisted `ocr_text` is the whitespace-trimmed text the collaborator
returns, any collaborator failure yields the empty string, and the job
finishes with `processing_status = "completed"`. -/
theorem c4_ocr_original_path_trim_and_complete (env : Env) (id : Int) (path : String)
    (st : St) (hOpen : ∃ src, env.openResult path = some src)
    (hSave : env.saveOk = true) (hDb : env.dbOk = true) :
    ∀ m ∈ (processImage env id path st).media, m.id = id →
      m.processingStatus = "completed" ∧
      m.ocrText = some (match env.ocrRun path with
        | none => ""
        | some out => goTrimSpace out) := by
  obtain ⟨src, hsrc⟩ := hOpen
  intro m hm hid
  have hmedia : (processImage env id path st).media =
      st.media.map (fun m =>
        if m.id = id then
          { m with thumb := some (thumbPathFor id), width := some src.width,
                   height := some src.height, ocrText := some (extractOCR env path),
                   processingStatus := "completed" }
        else m) := by
    cases hft : env.ftsOk <;>
      simp [processImage, hsrc, hSave, hDb, hft, updateFtsOcrWhereIdCol,
        updateMediaCompleted, putFile]
  rw [hmedia] at hm
  rcases List.mem_map.1 hm with ⟨a, _, rfl⟩
  by_cases hc : a.id = id
  · refine ⟨?_, ?_⟩
    · simp [if_pos hc]
    · simp [if_pos hc, extractOCR]
  · rw [if_neg hc] at hid ⊢
    exact absurd hid hc

def c4wEnv : Env :=
  ⟨fun _ => some ⟨10, 10⟩, true, fun _ => none, true, true, true, true⟩

def c4wRec : MediaRecord :=
  ⟨2, "storage/b.png", none, "image/png", none, none, 1, "", none, "processing", 0⟩

def c4wSt : St :=
  ⟨[c4wRec], [], [], []⟩

def c4wUpd : MediaRecord :=
  ⟨2, "storage/b.png", some (thumbPathFor 2), "image/png", some 10, some 10, 1, "",
    some "", "completed", 0⟩

theorem c4_witness :
    c4wUpd.processingStatus = "completed" ∧
    c4wUpd.ocrText = some (match c4wEnv.ocrRun "storage/b.png" with
      | none => ""
      | some out => goTrimSpace out) :=
  c4_ocr_original_path_trim_and_complete c4wEnv 2 "storage/b.png" c4wSt
    ⟨⟨10, 10⟩, rfl⟩ rfl rfl c4wUpd (by decide) rfl

/-- C5: for a decodable 300×200 image whose thumbnail save and record
write succeed, the thumbnail written at the deterministic per-id path is
the 200×133 Lanczos resize of the source (`imaging.Resize src 200 0
Lanczos`, aspect ratio preserved, rounded half-up), and the record ends up
with `width = 300`, `height = 200`. -/
theorem c5_thumbnail_and_dimensions (env : Env) (id : Int) (path : String) (st : St)
    (hOpen : env.openResult path = some ⟨300, 200⟩)
    (hSave : env.saveOk = true) (hDb : env.dbOk = true) :
    fileLookup (processImage env id path st) (thumbPathFor id) =
      some (FileData.thumb ⟨200, 133, ResampleFilter.lanczos⟩) ∧
    imagingResize ⟨300, 200⟩ 200 0 ResampleFilter.lanczos =
      ⟨200, 133, ResampleFilter.lanczos⟩ ∧
    ∀ m ∈ (processImage env id path st).media, m.id = id →
      m.width = some 300 ∧ m.height = some 200 := by
  have hres : imagingResize ⟨300, 200⟩ 200 0 ResampleFilter.lanczos =
      ⟨200, 133, ResampleFilter.lanczos⟩ := by decide
  refine ⟨?_, hres, ?_⟩
  · have hfiles : (processImage env id path st).files =
        (putFile st (thumbPathFor id)
          (FileData.thumb (imagingResize ⟨300, 200⟩ 200 0 ResampleFilter.lanczos))).files := by
      cases hft : env.ftsOk <;>
        simp [processImage, hOpen, hSave, hDb, hft, updateFtsOcrWhereIdCol,
          updateMediaCompleted]
    simp only [fileLookup] at *
    rw [hfiles, hres]
    have := fileLookup_putFile st (thumbPathFor id)
      (FileData.thumb ⟨200, 133, ResampleFilter.lanczos⟩)
    simpa [fileLookup] using this
  · intro m hm hid
    have hmedia : (processImage env id path st).media =
        st.media.map (fun m =>
          if m.id = id then
            { m with thumb := some (thumbPathFor id), width := some 300,
                     height := some 200, ocrText := some (extractOCR env path),
                     processingStatus := "completed" }
          else m) := by
      cases hft : env.ftsOk <;>
        simp [processImage, hOpen, hSave, hDb, hft, updateFtsOcrWhereIdCol,
          updateMediaCompleted, putFile]
    rw [hmedia] at hm
    rcases List.mem_map.1 hm with ⟨a, _, rfl⟩
    by_cases hc : a.id = id
    · refine ⟨?_, ?_⟩ <;> simp [if_pos hc]
    · rw [if_neg hc] at hid ⊢
      exact absurd hid hc

def c5Env : Env :=
  ⟨fun _ => some ⟨300, 200⟩, true, fun _ => none, true, true, true, true⟩

def c5Rec : MediaRecord :=
  ⟨4, "storage/c.png", none, "image/png", none, none, 6, "", none, "processing", 0⟩

def c5St : St :=
  ⟨[c5Rec], [], [], []⟩

def c5Upd : MediaRecord :=
  ⟨4, "storage/c.png", some (thumbPathFor 4), "image/png", some 300, some 200, 6, "",
    some "", "completed", 0⟩

theorem c5_witness :
    fileLookup (processImage c5Env 4 "storage/c.png" c5St) (thumbPathFor 4) =
      some (FileData.thumb ⟨200, 133, ResampleFilter.lanczos⟩) ∧
    c5Upd.width = some 300 ∧ c5Upd.height = some 200 := by
  have h := c5_thumbnail_and_dimensions c5Env 4 "storage/c.png" c5St rfl rfl rfl
  exact ⟨h.1, h.2.2 c5Upd (by decide) rfl⟩

/-- C6: an image job whose decode fails, or whose thumbnail save fails,
aborts with the whole state (record, index, filesystem, queue) exactly as
it was: no field written, no search-index write, nothing surfaced to any
caller. -/
theorem c6_decode_or_save_failure_aborts_unchanged (env : Env) (id : Int)
    (path : String) (st : St) :
    (env.openResult path = none → processImage env id path st = st) ∧
    (env.saveOk = false → processImage env id path st = st) := by
  constructor
  · intro h
    simp [processImage, h]
  · intro h
    cases ho : env.openResult path <;> simp [processImage, ho, h]

def c6OpenFailEnv : Env :=
  ⟨fun _ => none, true, fun _ => none, true, true, true, true⟩

def c6SaveFailEnv : Env :=
  ⟨fun _ => some ⟨3, 3⟩, false, fun _ => none, true, true, true, true⟩

theorem c6_witness :
    processImage c6OpenFailEnv 1 "storage/a.png" emptySt = emptySt ∧
    processImage c6SaveFailEnv 1 "storage/a.png" emptySt = emptySt :=
  ⟨(c6_decode_or_save_failure_aborts_unchanged c6OpenFailEnv 1 "storage/a.png" emptySt).1 rfl,
   (c6_decode_or_save_failure_aborts_unchanged c6SaveFailEnv 1 "storage/a.png" emptySt).2 rfl⟩

/-- C7: for every non-empty query, the match set is resolved against the
index alone (`ftsMatch` applied to the query and the fts rows); an empty
match set returns the empty result with the primary store not queried;
otherwise the primary store is queried and the rows are exactly the
records whose ids are in the match set (a permutation of that selection)
ordered by `created_at` descending. -/
theorem c7_query_engine (ftsMatch : String → List FtsRow → List Int) (st : St)
    (q : String) (hq : q ≠ "") :
    (ftsMatch q st.fts = [] → getMedia ftsMatch st q = ⟨false, []⟩) ∧
    (ftsMatch q st.fts ≠ [] →
      (getMedia ftsMatch st q).primaryQueried = true ∧
      (getMedia ftsMatch st q).rows.Perm
        (st.media.filter (fun m => (ftsMatch q st.fts).contains m.id)) ∧
      List.Sorted createdDescR (getMedia ftsMatch st q).rows) := by
  constructor
  · intro h
    simp [getMedia, hq, h]
  · intro h
    refine ⟨?_, ?_, ?_⟩
    · simp [getMedia, hq, h]
    · simp only [getMedia, if_neg hq, if_neg h]
      exact List.perm_insertionSort _ _
    · simp only [getMedia, if_neg hq, if_neg h]
      exact List.sorted_insertionSort _ _

def c7NoMatch : String → List FtsRow → List Int :=
  fun _ _ => []

def c7OneMatch : String → List FtsRow → List Int :=
  fun _ _ => [4]

def c7Rec : MediaRecord :=
  ⟨4, "storage/c.png", none, "image/png", none, none, 6, "", none, "processing", 0⟩

def c7St : St :=
  ⟨[c7Rec], [], [], []⟩

theorem c7_witness :
    getMedia c7NoMatch c7St "cat" = ⟨false, []⟩ ∧
    (getMedia c7OneMatch c7St "cat").primaryQueried = true := by
  refine ⟨(c7_query_engine c7NoMatch c7St "cat" (by decide)).1 rfl, ?_⟩
  exact ((c7_query_engine c7OneMatch c7St "cat" (by decide)).2 (by decide)).1

/-- C8: for every job handled by the Video Frame Extractor, if the per-id
temporary frame path did not exist beforehand and the removal succeeds,
the frame file does not exist after the job finishes, whatever the
delegated image processing did (including aborting partway); and removal
failure is non-fatal: the job's record, index and queue effects are
identical whether or not the removal succeeds. -/
theorem c8_temp_frame_removed (env : Env) (id : Int) (path : String) (st : St)
    (h0 : fileExists st (framePathFor id) = false)
    (hr : env.removeOk = true) :
    fileExists (processVideoOrGif env id path st) (framePathFor id) = false ∧
    ∀ ro : Bool,
      (processVideoOrGif { env with removeOk := ro } id path st).media =
        (processVideoOrGif env id path st).media ∧
      (processVideoOrGif { env with removeOk := ro } id path st).fts =
        (processVideoOrGif env id path st).fts ∧
      (processVideoOrGif { env with removeOk := ro } id path st).queue =
        (processVideoOrGif env id path st).queue := by
  obtain ⟨o, sv, ocr, db, fts, ff, rm⟩ := env
  have hrm : rm = true := hr
  subst hrm
  constructor
  · cases hff : ff
    · simpa [processVideoOrGif, hff] using h0
    · simp only [processVideoOrGif, hff, if_true]
      exact fileExists_removeFile _ _
  · intro ro
    cases hff : ff
    · simp [processVideoOrGif, hff]
    · cases ro <;>
        simp [processVideoOrGif, hff, removeFile,
          processImage_ignores_ffmpeg_remove o sv ocr db fts true false true true]

def c8Env : Env :=
  ⟨fun _ => some ⟨10, 10⟩, true, fun _ => none, true, true, true, true⟩

theorem c8_witness :
    fileExists (processVideoOrGif c8Env 9 "storage/v.mp4" emptySt) (framePathFor 9) = false ∧
    (processVideoOrGif { c8Env with removeOk := false } 9 "storage/v.mp4" emptySt).media =
      (processVideoOrGif c8Env 9 "storage/v.mp4" emptySt).media := by
  have h := c8_temp_frame_removed c8Env 9 "storage/v.mp4" emptySt rfl rfl
  exact ⟨h.1, (h.2 false).1⟩

/-- C9: the job queue has fixed capacity 100; while all slots are
occupied no send can complete (the only enabled transition is a worker's
dequeue, after which a slot is free and a send is enabled again); the
only transitions are enqueue and dequeue, and in every reachable state
the enqueue history equals the delivery history followed by the buffer —
so no job is ever dropped and jobs are delivered in FIFO arrival order
across all producers (the delivered sequence is a prefix of the enqueued
sequence). -/
theorem c9_backpressure_and_fifo :
    queueCapacity = 100 ∧
    (∀ s s' : ChanState, s.buffer.length = queueCapacity → ChanStep s s' →
      s'.enqueued = s.enqueued ∧ s'.buffer.length < queueCapacity) ∧
    (∀ (s : ChanState) (j : ProcessingJob), s.buffer.length < queueCapacity →
      ChanStep s ⟨s.buffer ++ [j], s.enqueued ++ [j], s.delivered⟩) ∧
    (∀ s : ChanState, ChanReachable s → s.enqueued = s.delivered ++ s.buffer) ∧
    (∀ s : ChanState, ChanReachable s → s.delivered <+: s.enqueued) := by
  have hinv : ∀ s : ChanState, ChanReachable s → s.enqueued = s.delivered ++ s.buffer := by
    intro s h
    induction h with
    | refl => rfl
    | tail _ hstep ih =>
      cases hstep with
      | enqueue j t _ =>
        simp only [ih, List.append_assoc]
      | dequeue j rest t ht =>
        simp only [ih, ht]
        simp
  refine ⟨rfl, ?_, ?_, hinv, ?_⟩
  · intro s s' hfull hstep
    cases hstep with
    | enqueue j t hlt =>
      exact absurd hfull (Nat.ne_of_lt hlt)
    | dequeue j rest t ht =>
      refine ⟨rfl, ?_⟩
      rw [ht] at hfull
      simp only [List.length_cons, queueCapacity] at hfull ⊢
      omega
  · intro s j hlt
    exact ChanStep.enqueue j s hlt
  · intro s h
    exact ⟨s.buffer, (hinv s h).symm⟩

def c9Job : ProcessingJob :=
  ⟨1, "storage/a.png", "image/png"⟩

def c9Full : ChanState :=
  ⟨List.replicate 100 c9Job, List.replicate 100 c9Job, []⟩

def c9Drained : ChanState :=
  ⟨List.replicate 99 c9Job, List.replicate 100 c9Job, [c9Job]⟩

theorem c9_witness :
    (c9Drained.enqueued = c9Full.enqueued ∧ c9Drained.buffer.length < queueCapacity) ∧
    ChanStep chanInit ⟨chanInit.buffer ++ [c9Job], chanInit.enqueued ++ [c9Job],
      chanInit.delivered⟩ ∧
    chanInit.enqueued = chanInit.delivered ++ chanInit.buffer ∧
    chanInit.delivered <+: chanInit.enqueued := by
  have h := c9_backpressure_and_fifo
  have hstep : ChanStep c9Full c9Drained := by
    have hbuf : c9Full.buffer = c9Job :: List.replicate 99 c9Job := rfl
    exact ChanStep.dequeue c9Job (List.replicate 99 c9Job) c9Full hbuf
  refine ⟨h.2.1 c9Full c9Drained (by decide) hstep, ?_, ?_, ?_⟩
  · exact h.2.2.1 chanInit c9Job (by decide)
  · exact h.2.2.2.1 chanInit Relation.ReflTransGen.refl
  · exact h.2.2.2.2 chanInit Relation.ReflTransGen.refl

/-- C10: for a syntactically valid integer id with no corresponding
record (and, as the upload path guarantees, no index row keyed by that
rowid), the tag-update handler reports success — HTTP 200 echoing the
submitted tags — while changing neither the `media` table nor the
`media_fts` index; and the response (status and body) is the same for
every store, so at the public interface a no-op edit of a nonexistent id
is indistinguishable from a successful edit. -/
theorem c10_tag_update_nonexistent_id (idStr tags : String) (id : Int) (st : St)
    (hp : parseGoInt64 idStr = some id)
    (hm : ∀ m ∈ st.media, ¬ m.id = id)
    (hf : ∀ r ∈ st.fts, ¬ r.rowid = id) :
    updateTagsHandler true true idStr tags st = ⟨st, 200, tags⟩ ∧
    (∀ st' : St, (updateTagsHandler true true idStr tags st').status = 200 ∧
      (updateTagsHandler true true idStr tags st').body = tags) := by
  constructor
  · simp only [updateTagsHandler, hp, if_pos rfl]
    rw [map_if_eq_self st.media (fun m => m.id = id) _ hm,
      map_if_eq_self st.fts (fun r => r.rowid = id) _ hf]
    simp
  · intro st'
    simp [updateTagsHandler, hp]

def c10AltRec : MediaRecord :=
  ⟨7, "storage/d.png", none, "image/png", none, none, 2, "old", none, "processing", 0⟩

def c10AltSt : St :=
  ⟨[c10AltRec], [⟨7, none, "", "old", "storage/d.png"⟩], [], []⟩

theorem c10_witness :
    updateTagsHandler true true "7" "cats, memes" emptySt = ⟨emptySt, 200, "cats, memes"⟩ ∧
    (updateTagsHandler true true "7" "cats, memes" c10AltSt).status = 200 ∧
    (updateTagsHandler true true "7" "cats, memes" c10AltSt).body = "cats, memes" := by
  have h := c10_tag_update_nonexistent_id "7" "cats, memes" 7 emptySt (by decide)
    (by intro m hm; cases hm) (by intro r hr; cases hr)
  exact ⟨h.1, h.2 c10AltSt⟩

end MemeVault
